import Mathlib

/-!
Verification of the window-vibrancy crate's dispatch layer and adapters.

The crate exposes seven public operations (`apply_blur`, `clear_blur`,
`apply_acrylic`, `clear_acrylic`, `apply_mica`, `clear_mica`,
`apply_vibrancy`).  Each inspects the raw window handle variant and either
delegates to the platform adapter matching the running OS or fails with
`Error.UnsupportedPlatform`.  The dispatcher and the `Error` type are embedded
from `src/lib.rs`; the two platform adapter modules (`mod windows;`,
`mod macos;`) are declared there but their sources are not present, so those
adapters are modelled from the specification, each such definition marked
`Modelled from the spec:` in its doc comment.
-/

/-- RGBA color: a tuple of four 8-bit channels (src/lib.rs `pub type Color`). -/
abbrev Color := Nat × Nat × Nat × Nat

/-- Modelled from the spec: `macos::NSVisualEffectMaterial` (re-exported by
src/lib.rs; the macos module source is missing).  An enumerated set of named
appearance styles mirroring the OS's own material catalog. -/
inductive NSVisualEffectMaterial
  | appearanceBased
  | light
  | dark
  | mediumLight
  | ultraDark
  | titlebar
  | selection
  | menu
  | popover
  | sidebar
  | headerView
  | sheet
  | windowBackground
  | hudWindow
  | fullScreenUI
  | tooltip
  | contentBackground
  | underWindowBackground
  | underPageBackground
  deriving DecidableEq

/-- The tagged raw window handle union supplied by the windowing layer
(`raw_window_handle::RawWindowHandle`): a closed variant set covering the
Windows native handle, the AppKit native window reference, and other
platform tags none of which match either adapter. -/
inductive RawWindowHandle
  | Win32 (hwnd : Nat)
  | AppKit (ns_window : Nat)
  | Xlib (window : Nat)
  | Wayland (surface : Nat)
  | Web (id : Nat)
  deriving DecidableEq

/-- The operating system the crate runs on: the `#[cfg(target_os = ...)]`
gates in src/lib.rs compile the `Win32` match arm only on Windows and the
`AppKit` arm only on macOS; on any other OS every arm but the fallback is
absent. -/
inductive OS
  | windows
  | macos
  | linux
  deriving DecidableEq

/-- src/lib.rs `pub enum Error`: the closed error taxonomy.  Each variant
carries a static string message. -/
inductive Error
  | UnsupportedPlatform (msg : String)
  | UnsupportedPlatformVersion (msg : String)
  | NotMainThread (msg : String)
  deriving DecidableEq

/-- The static message carried by an `Error` value. -/
def Error.message : Error → String
  | .UnsupportedPlatform m => m
  | .UnsupportedPlatformVersion m => m
  | .NotMainThread m => m

/-- src/lib.rs `impl Display for Error`: all three variants are formatted by
writing the carried message verbatim, with no variant-distinguishing prefix. -/
def Error.display : Error → String
  | .UnsupportedPlatform m => m
  | .UnsupportedPlatformVersion m => m
  | .NotMainThread m => m

/-- Modelled from the spec: the designated "modern" Windows build required by
acrylic ("Works only on Windows 10 v1809 or newer and Windows 11",
src/lib.rs doc comment); a fixed named constant, not configurable. -/
def ACRYLIC_MIN_BUILD : Nat := 17763

/-- Modelled from the spec: the first Mica-capable Windows build ("Works only
on Windows 11", src/lib.rs doc comment); a fixed named constant. -/
def MICA_MIN_BUILD : Nat := 22000

/-- Modelled from the spec: the accent color packed into the private
composition-attribute structure, one byte per channel in the documented
platform-specific channel order (the little-endian bytes R, G, B, A of the
32-bit accent value). -/
def packColor : Color → List Nat
  | (r, g, b, a) => [r, g, b, a]

/-- Modelled from the spec: the preset translucent gray-black accent color
used when no color is supplied (the gray-black translucent tuple shown in the
src/lib.rs usage example). -/
def DEFAULT_ACCENT : Color := (18, 18, 18, 125)

/-- The window's private composition attribute: the backdrop-type tag and,
for blur-behind and acrylic, the packed accent color bytes.  `none` is the
cleared state. -/
inductive CompAttr
  | none
  | blurBehind (accent : List Nat)
  | acrylic (accent : List Nat)
  deriving DecidableEq

/-- The window's backdrop-type system parameter (used by mica); `none` is the
cleared state. -/
inductive SysBackdrop
  | none
  | mica
  deriving DecidableEq

/-- The OS-retained effect state of one native Windows window: its private
composition attribute and its backdrop-type system parameter. -/
structure WinWindow where
  compAttr : CompAttr
  backdrop : SysBackdrop
  deriving DecidableEq

/-- A Windows window on which no effect was ever applied: both attributes in
their cleared state. -/
def freshWinWindow : WinWindow := { compAttr := .none, backdrop := .none }

namespace windows

/-- Modelled from the spec: `windows::apply_blur` (module source missing).
Issues the composition-attribute call with the blur-behind backdrop tag and
the accent color packed from the tuple, defaulting to the preset translucent
gray-black; any prior exclusive backdrop is cleared first. -/
def apply_blur (_w : WinWindow) (color : Option Color) : Except Error Unit × WinWindow :=
  (.ok (), { compAttr := .blurBehind (packColor (color.getD DEFAULT_ACCENT)), backdrop := .none })

/-- Modelled from the spec: `windows::clear_blur` (module source missing).
Resets the private composition attribute's backdrop tag to none; a no-op
success on a window with no effect applied. -/
def clear_blur (w : WinWindow) : Except Error Unit × WinWindow :=
  (.ok (), { w with compAttr := .none })

/-- Modelled from the spec: `windows::apply_acrylic` (module source missing).
Requires the build to be at least the designated modern build, else fails
with `UnsupportedPlatformVersion`; issues the composition-attribute call with
the acrylic backdrop tag and the packed accent color, clearing any prior
exclusive backdrop first. -/
def apply_acrylic (build : Nat) (w : WinWindow) (color : Option Color) :
    Except Error Unit × WinWindow :=
  if build < ACRYLIC_MIN_BUILD then
    (.error (.UnsupportedPlatformVersion
      "\"apply_acrylic()\" is only supported on Windows 10 v1809 or newer."), w)
  else
    (.ok (), { compAttr := .acrylic (packColor (color.getD DEFAULT_ACCENT)), backdrop := .none })

/-- Modelled from the spec: `windows::clear_acrylic` (module source missing).
Version-gated like the apply; resets the composition attribute's backdrop tag
to none; a no-op success on a window with no effect applied. -/
def clear_acrylic (build : Nat) (w : WinWindow) : Except Error Unit × WinWindow :=
  if build < ACRYLIC_MIN_BUILD then
    (.error (.UnsupportedPlatformVersion
      "\"clear_acrylic()\" is only supported on Windows 10 v1809 or newer."), w)
  else
    (.ok (), { w with compAttr := .none })

/-- Modelled from the spec: `windows::apply_mica` (module source missing).
Requires a Mica-capable build, else fails with `UnsupportedPlatformVersion`;
sets the backdrop-type system parameter to mica and clears any legacy
composition attribute lingering from a previous acrylic/blur call. -/
def apply_mica (build : Nat) (w : WinWindow) : Except Error Unit × WinWindow :=
  if build < MICA_MIN_BUILD then
    (.error (.UnsupportedPlatformVersion
      "\"apply_mica()\" is only supported on Windows 11."), w)
  else
    (.ok (), { compAttr := .none, backdrop := .mica })

/-- Modelled from the spec: `windows::clear_mica` (module source missing).
Version-gated like the apply; resets the backdrop-type system parameter to
none; a no-op success on a window with no effect applied. -/
def clear_mica (build : Nat) (w : WinWindow) : Except Error Unit × WinWindow :=
  if build < MICA_MIN_BUILD then
    (.error (.UnsupportedPlatformVersion
      "\"clear_mica()\" is only supported on Windows 11."), w)
  else
    (.ok (), { w with backdrop := .none })

end windows

/-- The translucent visual-effect subview the macOS adapter inserts as the
backmost layer of the window's content view. -/
structure VibrancyView where
  material : NSVisualEffectMaterial
  blendsBehindWindow : Bool
  followsWindowActiveState : Bool
  deriving DecidableEq

/-- The OS-retained view state of one macOS window: its vibrant background
marker view, if one was inserted. -/
structure MacWindow where
  vibrancyView : Option VibrancyView
  deriving DecidableEq

/-- A macOS window whose content view holds no vibrancy view. -/
def freshMacWindow : MacWindow := { vibrancyView := Option.none }

namespace macos

/-- Modelled from the spec: `macos::apply_vibrancy` (module source missing).
Must execute on the main thread, else fails with `NotMainThread` without
touching the view hierarchy; otherwise installs (or updates in place) the
vibrancy view with the caller-supplied material, blending behind the window
and following the window's active state. -/
def apply_vibrancy (onMainThread : Bool) (w : MacWindow) (material : NSVisualEffectMaterial) :
    Except Error Unit × MacWindow :=
  if onMainThread then
    let v : VibrancyView :=
      { material := material, blendsBehindWindow := true, followsWindowActiveState := true }
    (.ok (), { vibrancyView := some v })
  else
    (.error (.NotMainThread
      "\"apply_vibrancy()\" can only be used from the main thread."), w)

end macos

/-- The ambient state an operation can observe and mutate: the Windows build
number reported by the OS, whether the caller is on the macOS main thread,
and the OS-retained state of the addressed window on each platform. -/
structure World where
  winBuild : Nat
  onMainThread : Bool
  win : WinWindow
  mac : MacWindow
  deriving DecidableEq

/-- src/lib.rs `apply_blur`: matches the raw window handle; the `Win32` arm
exists only when compiled for Windows and delegates to the Windows adapter;
every other case returns `UnsupportedPlatform`. -/
def apply_blur (os : OS) (world : World) (window : RawWindowHandle) (color : Option Color) :
    Except Error Unit × World :=
  match os, window with
  | .windows, .Win32 _ =>
    let p := windows.apply_blur world.win color
    (p.1, { world with win := p.2 })
  | _, _ =>
    (.error (.UnsupportedPlatform "\"apply_blur()\" is only supported on Windows."), world)

/-- src/lib.rs `clear_blur`. -/
def clear_blur (os : OS) (world : World) (window : RawWindowHandle) :
    Except Error Unit × World :=
  match os, window with
  | .windows, .Win32 _ =>
    let p := windows.clear_blur world.win
    (p.1, { world with win := p.2 })
  | _, _ =>
    (.error (.UnsupportedPlatform "\"clear_blur()\" is only supported on Windows."), world)

/-- src/lib.rs `apply_acrylic`. -/
def apply_acrylic (os : OS) (world : World) (window : RawWindowHandle) (color : Option Color) :
    Except Error Unit × World :=
  match os, window with
  | .windows, .Win32 _ =>
    let p := windows.apply_acrylic world.winBuild world.win color
    (p.1, { world with win := p.2 })
  | _, _ =>
    (.error (.UnsupportedPlatform "\"apply_acrylic()\" is only supported on Windows."), world)

/-- src/lib.rs `clear_acrylic`. -/
def clear_acrylic (os : OS) (world : World) (window : RawWindowHandle) :
    Except Error Unit × World :=
  match os, window with
  | .windows, .Win32 _ =>
    let p := windows.clear_acrylic world.winBuild world.win
    (p.1, { world with win := p.2 })
  | _, _ =>
    (.error (.UnsupportedPlatform "\"clear_acrylic()\" is only supported on Windows."), world)

/-- src/lib.rs `apply_mica`. -/
def apply_mica (os : OS) (world : World) (window : RawWindowHandle) :
    Except Error Unit × World :=
  match os, window with
  | .windows, .Win32 _ =>
    let p := windows.apply_mica world.winBuild world.win
    (p.1, { world with win := p.2 })
  | _, _ =>
    (.error (.UnsupportedPlatform "\"apply_mica()\" is only supported on Windows."), world)

/-- src/lib.rs `clear_mica`. -/
def clear_mica (os : OS) (world : World) (window : RawWindowHandle) :
    Except Error Unit × World :=
  match os, window with
  | .windows, .Win32 _ =>
    let p := windows.clear_mica world.winBuild world.win
    (p.1, { world with win := p.2 })
  | _, _ =>
    (.error (.UnsupportedPlatform "\"clear_mica()\" is only supported on Windows."), world)

/-- src/lib.rs `apply_vibrancy`: the `AppKit` arm exists only when compiled
for macOS and delegates to the macOS adapter; every other case returns
`UnsupportedPlatform`. -/
def apply_vibrancy (os : OS) (world : World) (window : RawWindowHandle)
    (effect : NSVisualEffectMaterial) : Except Error Unit × World :=
  match os, window with
  | .macos, .AppKit _ =>
    let p := macos.apply_vibrancy world.onMainThread world.mac effect
    (p.1, { world with mac := p.2 })
  | _, _ =>
    (.error (.UnsupportedPlatform "\"apply_vibrancy()\" is only supported on macOS."), world)

/-- Whether the handle's platform variant is the one the running OS's
compiled-in dispatcher arm accepts (`Win32` on Windows, `AppKit` on macOS;
nothing on any other OS). -/
def handleMatchesOS (os : OS) (h : RawWindowHandle) : Bool :=
  match os, h with
  | .windows, .Win32 _ => true
  | .macos, .AppKit _ => true
  | _, _ => false

/-- Whether the handle is the AppKit variant. -/
def RawWindowHandle.isAppKit : RawWindowHandle → Bool
  | .AppKit _ => true
  | _ => false

/-- Whether a result is an `UnsupportedPlatform` failure. -/
def isUnsupportedPlatformErr : Except Error Unit → Bool
  | .error (.UnsupportedPlatform _) => true
  | _ => false

/-- Whether the first list of characters occurs at the head of the second. -/
def matchesAt : List Char → List Char → Bool
  | [], _ => true
  | _ :: _, [] => false
  | a :: as, b :: bs => a == b && matchesAt as bs

/-- Whether the first list of characters occurs contiguously anywhere in the
second. -/
def containsChars (needle : List Char) : List Char → Bool
  | [] => matchesAt needle []
  | c :: rest => matchesAt needle (c :: rest) || containsChars needle rest

/-- Whether the string `s` mentions `needle` as a substring. -/
def mentionsOp (needle s : String) : Bool :=
  containsChars needle.toList s.toList

/-- A result is well named for an operation if, whenever it is an
`UnsupportedPlatform` failure, the carried message mentions that operation's
name; any other result is vacuously well named. -/
def upWellNamed (needle : String) : Except Error Unit → Bool
  | .error (.UnsupportedPlatform m) => mentionsOp needle m
  | _ => true

/-- A concrete ambient state used to instantiate proved theorems: a modern
Windows build, off the macOS main thread, effect-free windows. -/
def sampleWorld : World :=
  { winBuild := 22621, onMainThread := false, win := freshWinWindow, mac := freshMacWindow }

/-- A concrete ambient state whose reported Windows build predates the modern
threshold. -/
def lowBuildWorld : World :=
  { winBuild := 17000, onMainThread := false, win := freshWinWindow, mac := freshMacWindow }

theorem upWellNamed_windows_apply_blur (n : String) (w : WinWindow) (c : Option Color) :
    upWellNamed n (windows.apply_blur w c).1 = true := rfl

theorem upWellNamed_windows_clear_blur (n : String) (w : WinWindow) :
    upWellNamed n (windows.clear_blur w).1 = true := rfl

theorem upWellNamed_windows_apply_acrylic (n : String) (b : Nat) (w : WinWindow)
    (c : Option Color) : upWellNamed n (windows.apply_acrylic b w c).1 = true := by
  unfold windows.apply_acrylic
  split <;> rfl

theorem upWellNamed_windows_clear_acrylic (n : String) (b : Nat) (w : WinWindow) :
    upWellNamed n (windows.clear_acrylic b w).1 = true := by
  unfold windows.clear_acrylic
  split <;> rfl

theorem upWellNamed_windows_apply_mica (n : String) (b : Nat) (w : WinWindow) :
    upWellNamed n (windows.apply_mica b w).1 = true := by
  unfold windows.apply_mica
  split <;> rfl

theorem upWellNamed_windows_clear_mica (n : String) (b : Nat) (w : WinWindow) :
    upWellNamed n (windows.clear_mica b w).1 = true := by
  unfold windows.clear_mica
  split <;> rfl

theorem upWellNamed_macos_apply_vibrancy (n : String) (mt : Bool) (w : MacWindow)
    (e : NSVisualEffectMaterial) : upWellNamed n (macos.apply_vibrancy mt w e).1 = true := by
  unfold macos.apply_vibrancy
  split <;> rfl

/-- Claim C1: every Windows-only operation returns `UnsupportedPlatform` when
the handle's variant does not match the running OS's native variant, and
`apply_vibrancy` returns `UnsupportedPlatform` for every non-AppKit handle. -/
theorem C1_mismatched_handle_unsupported_platform (os : OS) (world : World)
    (h : RawWindowHandle) (color : Option Color) (effect : NSVisualEffectMaterial) :
    (handleMatchesOS os h = false →
      isUnsupportedPlatformErr (apply_blur os world h color).1 = true ∧
      isUnsupportedPlatformErr (clear_blur os world h).1 = true ∧
      isUnsupportedPlatformErr (apply_acrylic os world h color).1 = true ∧
      isUnsupportedPlatformErr (clear_acrylic os world h).1 = true ∧
      isUnsupportedPlatformErr (apply_mica os world h).1 = true ∧
      isUnsupportedPlatformErr (clear_mica os world h).1 = true) ∧
    (h.isAppKit = false →
      isUnsupportedPlatformErr (apply_vibrancy os world h effect).1 = true) := by
  constructor
  · intro hmis
    cases os <;> cases h <;>
      simp_all [handleMatchesOS, apply_blur, clear_blur, apply_acrylic, clear_acrylic,
        apply_mica, clear_mica, isUnsupportedPlatformErr]
  · intro hak
    cases os <;> cases h <;>
      simp_all [RawWindowHandle.isAppKit, apply_vibrancy, isUnsupportedPlatformErr]

theorem C1_mismatched_handle_unsupported_platform_witness :
    isUnsupportedPlatformErr (apply_blur .linux sampleWorld (.Xlib 7) none).1 = true ∧
    isUnsupportedPlatformErr (clear_blur .linux sampleWorld (.Xlib 7)).1 = true ∧
    isUnsupportedPlatformErr (apply_acrylic .linux sampleWorld (.Xlib 7) none).1 = true ∧
    isUnsupportedPlatformErr (clear_acrylic .linux sampleWorld (.Xlib 7)).1 = true ∧
    isUnsupportedPlatformErr (apply_mica .linux sampleWorld (.Xlib 7)).1 = true ∧
    isUnsupportedPlatformErr (clear_mica .linux sampleWorld (.Xlib 7)).1 = true ∧
    isUnsupportedPlatformErr
      (apply_vibrancy .linux sampleWorld (.Xlib 7) .appearanceBased).1 = true := by
  have h := C1_mismatched_handle_unsupported_platform .linux sampleWorld (.Xlib 7)
    none .appearanceBased
  obtain ⟨a1, a2, a3, a4, a5, a6⟩ := h.1 (by decide)
  exact ⟨a1, a2, a3, a4, a5, a6, h.2 (by decide)⟩

/-- Claim C2: whenever an operation fails with `UnsupportedPlatform`, the
carried static message mentions the name of the operation attempted. -/
theorem C2_unsupported_platform_message_names_operation (os : OS) (world : World)
    (h : RawWindowHandle) (color : Option Color) (effect : NSVisualEffectMaterial) :
    upWellNamed "apply_blur()" (apply_blur os world h color).1 = true ∧
    upWellNamed "clear_blur()" (clear_blur os world h).1 = true ∧
    upWellNamed "apply_acrylic()" (apply_acrylic os world h color).1 = true ∧
    upWellNamed "clear_acrylic()" (clear_acrylic os world h).1 = true ∧
    upWellNamed "apply_mica()" (apply_mica os world h).1 = true ∧
    upWellNamed "clear_mica()" (clear_mica os world h).1 = true ∧
    upWellNamed "apply_vibrancy()" (apply_vibrancy os world h effect).1 = true := by
  cases os <;> cases h <;>
    simp only [apply_blur, clear_blur, apply_acrylic, clear_acrylic, apply_mica, clear_mica,
      apply_vibrancy, upWellNamed_windows_apply_blur, upWellNamed_windows_clear_blur,
      upWellNamed_windows_apply_acrylic, upWellNamed_windows_clear_acrylic,
      upWellNamed_windows_apply_mica, upWellNamed_windows_clear_mica,
      upWellNamed_macos_apply_vibrancy] <;>
    decide

/-- Claim C3: the dispatcher only matches the handle's platform variant; on a
mismatch every operation returns the `UnsupportedPlatform` error directly,
invoking no platform adapter and leaving all window/OS state unchanged. -/
theorem C3_dispatcher_pure_routing (os : OS) (world : World) (h : RawWindowHandle)
    (color : Option Color) (effect : NSVisualEffectMaterial)
    (hmis : handleMatchesOS os h = false) :
    apply_blur os world h color =
      (.error (.UnsupportedPlatform "\"apply_blur()\" is only supported on Windows."), world) ∧
    clear_blur os world h =
      (.error (.UnsupportedPlatform "\"clear_blur()\" is only supported on Windows."), world) ∧
    apply_acrylic os world h color =
      (.error (.UnsupportedPlatform "\"apply_acrylic()\" is only supported on Windows."), world) ∧
    clear_acrylic os world h =
      (.error (.UnsupportedPlatform "\"clear_acrylic()\" is only supported on Windows."), world) ∧
    apply_mica os world h =
      (.error (.UnsupportedPlatform "\"apply_mica()\" is only supported on Windows."), world) ∧
    clear_mica os world h =
      (.error (.UnsupportedPlatform "\"clear_mica()\" is only supported on Windows."), world) ∧
    apply_vibrancy os world h effect =
      (.error (.UnsupportedPlatform "\"apply_vibrancy()\" is only supported on macOS."), world) := by
  cases os <;> cases h <;>
    simp_all [handleMatchesOS, apply_blur, clear_blur, apply_acrylic, clear_acrylic,
      apply_mica, clear_mica, apply_vibrancy]

theorem C3_dispatcher_pure_routing_witness :
    handleMatchesOS .linux (.Wayland 3) = false ∧
    apply_blur .linux sampleWorld (.Wayland 3) none =
      (.error (.UnsupportedPlatform "\"apply_blur()\" is only supported on Windows."),
        sampleWorld) :=
  ⟨by decide, (C3_dispatcher_pure_routing .linux sampleWorld (.Wayland 3) none
    .appearanceBased (by decide)).1⟩

/-- Claim C4: the error model is a closed taxonomy of exactly three kinds —
`UnsupportedPlatform`, `UnsupportedPlatformVersion`, `NotMainThread` — and
every `Error` value is one of these three, carrying its static message. -/
theorem C4_closed_error_taxonomy (e : Error) :
    e = .UnsupportedPlatform e.message ∨ e = .UnsupportedPlatformVersion e.message ∨
      e = .NotMainThread e.message := by
  cases e <;> simp [Error.message]

/-- Claim C5: on Windows, `apply_acrylic` below the modern build threshold
returns `UnsupportedPlatformVersion` and not Ok; at or above the threshold
the version check does not fail. -/
theorem C5_acrylic_version_gate (world : World) (hwnd : Nat) (color : Option Color) :
    (world.winBuild < ACRYLIC_MIN_BUILD →
      (apply_acrylic .windows world (.Win32 hwnd) color).1 =
        .error (.UnsupportedPlatformVersion
          "\"apply_acrylic()\" is only supported on Windows 10 v1809 or newer.")) ∧
    (ACRYLIC_MIN_BUILD ≤ world.winBuild →
      (apply_acrylic .windows world (.Win32 hwnd) color).1 = .ok ()) := by
  constructor
  · intro hb
    simp [apply_acrylic, windows.apply_acrylic, hb]
  · intro hb
    simp [apply_acrylic, windows.apply_acrylic, Nat.not_lt.mpr hb]

theorem C5_acrylic_version_gate_witness :
    (lowBuildWorld.winBuild < ACRYLIC_MIN_BUILD ∧
      (apply_acrylic .windows lowBuildWorld (.Win32 1) none).1 =
        .error (.UnsupportedPlatformVersion
          "\"apply_acrylic()\" is only supported on Windows 10 v1809 or newer.")) ∧
    (ACRYLIC_MIN_BUILD ≤ sampleWorld.winBuild ∧
      (apply_acrylic .windows sampleWorld (.Win32 1) none).1 = .ok ()) :=
  ⟨⟨by decide, (C5_acrylic_version_gate lowBuildWorld 1 none).1 (by decide)⟩,
   ⟨by decide, (C5_acrylic_version_gate sampleWorld 1 none).2 (by decide)⟩⟩

/-- Claim C6: on Windows (Mica-capable build), applying one exclusive
backdrop clears the other: mica then acrylic leaves only the acrylic
attribute set, and acrylic then mica leaves only the mica attribute set. -/
theorem C6_exclusive_backdrops_clear_each_other (world : World) (hwnd : Nat)
    (color : Option Color) (hb : MICA_MIN_BUILD ≤ world.winBuild) :
    ((apply_acrylic .windows (apply_mica .windows world (.Win32 hwnd)).2
        (.Win32 hwnd) color).2).win =
      { compAttr := .acrylic (packColor (color.getD DEFAULT_ACCENT)), backdrop := .none } ∧
    ((apply_mica .windows (apply_acrylic .windows world (.Win32 hwnd) color).2
        (.Win32 hwnd)).2).win =
      { compAttr := .none, backdrop := .mica } := by
  have hm : ¬ world.winBuild < MICA_MIN_BUILD := Nat.not_lt.mpr hb
  have ha : ¬ world.winBuild < ACRYLIC_MIN_BUILD := by
    unfold ACRYLIC_MIN_BUILD MICA_MIN_BUILD at *
    omega
  constructor <;>
    simp [apply_mica, apply_acrylic, windows.apply_mica, windows.apply_acrylic, hm, ha]

theorem C6_exclusive_backdrops_clear_each_other_witness :
    MICA_MIN_BUILD ≤ sampleWorld.winBuild ∧
    ((apply_acrylic .windows (apply_mica .windows sampleWorld (.Win32 2)).2
        (.Win32 2) none).2).win =
      { compAttr := .acrylic (packColor DEFAULT_ACCENT), backdrop := .none } ∧
    ((apply_mica .windows (apply_acrylic .windows sampleWorld (.Win32 2) none).2
        (.Win32 2)).2).win =
      { compAttr := .none, backdrop := .mica } :=
  ⟨by decide,
   (C6_exclusive_backdrops_clear_each_other sampleWorld 2 none (by decide)).1,
   (C6_exclusive_backdrops_clear_each_other sampleWorld 2 none (by decide)).2⟩

/-- Claim C7: on Windows (on a build where the effects are available), each
clear operation called on a window that never had the corresponding effect
applied returns Ok — a no-op success, leaving the window state unchanged. -/
theorem C7_clear_on_effect_free_window_is_noop_ok (world : World) (hwnd : Nat)
    (hfresh : world.win = freshWinWindow) (hb : MICA_MIN_BUILD ≤ world.winBuild) :
    ((clear_blur .windows world (.Win32 hwnd)).1 = .ok () ∧
      (clear_blur .windows world (.Win32 hwnd)).2.win = world.win) ∧
    ((clear_acrylic .windows world (.Win32 hwnd)).1 = .ok () ∧
      (clear_acrylic .windows world (.Win32 hwnd)).2.win = world.win) ∧
    ((clear_mica .windows world (.Win32 hwnd)).1 = .ok () ∧
      (clear_mica .windows world (.Win32 hwnd)).2.win = world.win) := by
  have hm : ¬ world.winBuild < MICA_MIN_BUILD := Nat.not_lt.mpr hb
  have ha : ¬ world.winBuild < ACRYLIC_MIN_BUILD := by
    unfold ACRYLIC_MIN_BUILD MICA_MIN_BUILD at *
    omega
  refine ⟨⟨?_, ?_⟩, ⟨?_, ?_⟩, ⟨?_, ?_⟩⟩ <;>
    simp [clear_blur, clear_acrylic, clear_mica, windows.clear_blur, windows.clear_acrylic,
      windows.clear_mica, hm, ha, hfresh, freshWinWindow]

theorem C7_clear_on_effect_free_window_is_noop_ok_witness :
    sampleWorld.win = freshWinWindow ∧ MICA_MIN_BUILD ≤ sampleWorld.winBuild ∧
    (clear_blur .windows sampleWorld (.Win32 6)).1 = .ok () ∧
    (clear_acrylic .windows sampleWorld (.Win32 6)).1 = .ok () ∧
    (clear_mica .windows sampleWorld (.Win32 6)).1 = .ok () := by
  have h := C7_clear_on_effect_free_window_is_noop_ok sampleWorld 6 (by decide) (by decide)
  exact ⟨by decide, by decide, h.1.1, h.2.1.1, h.2.2.1⟩

/-- Claim C8: on macOS, `apply_vibrancy` invoked off the main thread returns
`NotMainThread` and performs no view-hierarchy mutation: the whole ambient
state, the window's view state included, is returned unchanged. -/
theorem C8_vibrancy_off_main_thread_not_main_thread (world : World) (ns : Nat)
    (effect : NSVisualEffectMaterial) (hmt : world.onMainThread = false) :
    (apply_vibrancy .macos world (.AppKit ns) effect).1 =
      .error (.NotMainThread "\"apply_vibrancy()\" can only be used from the main thread.") ∧
    (apply_vibrancy .macos world (.AppKit ns) effect).2 = world := by
  obtain ⟨wb, mt, wwin, wmac⟩ := world
  have hmt2 : mt = false := hmt
  subst hmt2
  exact ⟨rfl, rfl⟩

theorem C8_vibrancy_off_main_thread_not_main_thread_witness :
    sampleWorld.onMainThread = false ∧
    (apply_vibrancy .macos sampleWorld (.AppKit 5) .dark).1 =
      .error (.NotMainThread "\"apply_vibrancy()\" can only be used from the main thread.") ∧
    (apply_vibrancy .macos sampleWorld (.AppKit 5) .dark).2 = sampleWorld := by
  have h := C8_vibrancy_off_main_thread_not_main_thread sampleWorld 5 .dark (by decide)
  exact ⟨by decide, h.1, h.2⟩

/-- Claim C9: on Windows, the accent color is packed one byte per channel in
the documented channel order — the tuple (18,18,18,125) yields exactly the
byte sequence [18,18,18,125] in both `apply_blur` and `apply_acrylic` — and
when no color is supplied the preset translucent gray-black default is
packed instead. -/
theorem C9_accent_color_packing (world : World) (hwnd : Nat)
    (hb : ACRYLIC_MIN_BUILD ≤ world.winBuild) :
    (apply_blur .windows world (.Win32 hwnd) (some (18, 18, 18, 125))).2.win.compAttr =
      .blurBehind [18, 18, 18, 125] ∧
    (apply_acrylic .windows world (.Win32 hwnd) (some (18, 18, 18, 125))).2.win.compAttr =
      .acrylic [18, 18, 18, 125] ∧
    (apply_blur .windows world (.Win32 hwnd) none).2.win.compAttr =
      .blurBehind (packColor DEFAULT_ACCENT) ∧
    (apply_acrylic .windows world (.Win32 hwnd) none).2.win.compAttr =
      .acrylic (packColor DEFAULT_ACCENT) := by
  have ha : ¬ world.winBuild < ACRYLIC_MIN_BUILD := Nat.not_lt.mpr hb
  refine ⟨?_, ?_, ?_, ?_⟩ <;>
    simp [apply_blur, apply_acrylic, windows.apply_blur, windows.apply_acrylic, ha,
      packColor, DEFAULT_ACCENT]

theorem C9_accent_color_packing_witness :
    ACRYLIC_MIN_BUILD ≤ sampleWorld.winBuild ∧
    (apply_acrylic .windows sampleWorld (.Win32 4) (some (18, 18, 18, 125))).2.win.compAttr =
      .acrylic [18, 18, 18, 125] ∧
    (apply_blur .windows sampleWorld (.Win32 4) none).2.win.compAttr =
      .blurBehind (packColor DEFAULT_ACCENT) := by
  have h := C9_accent_color_packing sampleWorld 4 (by decide)
  exact ⟨by decide, h.2.1, h.2.2.1⟩

/-- Claim C10: the Display implementation of `Error` prints exactly the
carried static message for all three variants, with no variant-distinguishing
prefix. -/
theorem C10_display_is_carried_message (e : Error) :
    Error.display e = e.message := by
  cases e <;> rfl
